import Mathlib

set_option maxHeartbeats 4000000
set_option synthInstance.maxHeartbeats 1000000
set_option synthInstance.maxSize 2048

/-
Verification development for the Bestia card game
(src/game.py and src/game_revision.py).

The Python code is shallowly embedded: the card model, the two fixed
rank-to-strength tables, the deck, the knock evaluator (GestoreBussata),
the card-memory tracker (TracciamentoCarte) and the trick engine
(GestoreTurno) are translated into executable Lean definitions, and the
spec's claims are settled as theorems about those definitions.
-/

/-- Seme: the four suits of the Neapolitan deck (ConfigurazioneGioco.SEMI). -/
inductive Seme where
  | coppe
  | denari
  | spade
  | bastoni
deriving DecidableEq, Fintype

/-- Valore: the ten symbolic ranks (ConfigurazioneGioco.VALORI). -/
inductive Valore where
  | asso
  | due
  | tre
  | quattro
  | cinque
  | sei
  | sette
  | fante
  | cavallo
  | re
deriving DecidableEq, Fintype

/-- Carta: a playing card, `valore`/`seme` plus the derived take-strength
`forza_presa` (default 0, as in the Python dataclass). -/
structure Carta where
  valore : Valore
  seme : Seme
  forza_presa : Nat := 0
deriving DecidableEq

/-- Python Carta.__eq__ / __hash__ compare only (valore, seme), ignoring
forza_presa; all set-membership in the source uses this notion. -/
def cartaEq (a b : Carta) : Bool :=
  a.valore == b.valore && a.seme == b.seme

/-- Membership of a card in a Python collection, under Carta.__eq__. -/
def cartaMem (c : Carta) (l : List Carta) : Bool :=
  l.any (cartaEq c)

/-- ConfigurazioneGioco.FORZA_NON_BRISCOLA: strength of a non-trump card. -/
def FORZA_NON_BRISCOLA : Valore → Nat
  | .asso => 90
  | .tre => 80
  | .re => 60
  | .cavallo => 50
  | .fante => 40
  | .sette => 20
  | .sei => 15
  | .cinque => 10
  | .quattro => 5
  | .due => 2

/-- ConfigurazioneGioco.FORZA_BRISCOLA: strength of a trump card. -/
def FORZA_BRISCOLA : Valore → Nat
  | .asso => 100
  | .tre => 95
  | .re => 85
  | .cavallo => 75
  | .fante => 65
  | .sette => 55
  | .sei => 50
  | .cinque => 45
  | .quattro => 40
  | .due => 35

/-- ConfigurazioneGioco.SEMI, in source order. -/
def SEMI : List Seme := [.coppe, .denari, .spade, .bastoni]

/-- ConfigurazioneGioco.VALORI, in source order. -/
def VALORI : List Valore := [.asso, .due, .tre, .quattro, .cinque, .sei, .sette, .fante, .cavallo, .re]

/-- ConfigurazioneGioco.SOGLIA_PUNTI_BUSSATA. -/
def SOGLIA_PUNTI_BUSSATA : Nat := 150

/-- ConfigurazioneGioco.CARTE_PER_MANO. -/
def CARTE_PER_MANO : Nat := 3

/-- The card hierarchy from strongest to weakest, the order in which both
strength tables are written in the source (Asso, 3, Re, Cavallo, Fante,
7, 6, 5, 4, 2). -/
def gerarchia : List Valore := [.asso, .tre, .re, .cavallo, .fante, .sette, .sei, .cinque, .quattro, .due]

/-- Mazzo.crea_mazzo: the full 40-card deck, outer loop over VALORI and
inner loop over SEMI, strengths not yet assigned. -/
def crea_mazzo : List Carta :=
  VALORI.flatMap fun valore => SEMI.map fun seme => { valore := valore, seme := seme }

/-- The per-card strength assignment performed by Mazzo.assegna_forza_carte:
a card of the trump suit gets FORZA_BRISCOLA of its rank, any other card
gets FORZA_NON_BRISCOLA of its rank. -/
def assegna_forza (briscolaSeme : Seme) (c : Carta) : Carta :=
  if c.seme == briscolaSeme then { c with forza_presa := FORZA_BRISCOLA c.valore }
  else { c with forza_presa := FORZA_NON_BRISCOLA c.valore }

/-- The 40-card deck with strengths assigned under a fixed trump suit
(crea_mazzo followed by the assignment of assegna_forza_carte, applied to
every card of the deck as the spec quantifies over all 40 cards). -/
def deckConForza (briscolaSeme : Seme) : List Carta :=
  crea_mazzo.map (assegna_forza briscolaSeme)

/-- Mazzo: the deck state (list of cards plus the extracted trump card). -/
structure Mazzo where
  carte : List Carta := []
  briscola : Option Carta := none
deriving DecidableEq

/-- Mazzo.pesca_carte: when fewer cards remain than requested, returns the
empty list and leaves the deck untouched; otherwise pops num_carte cards
off the front one at a time (equal to take/drop under the guard). -/
def Mazzo.pesca_carte (m : Mazzo) (num_carte : Nat) : List Carta × Mazzo :=
  if m.carte.length < num_carte then ([], m)
  else (m.carte.take num_carte, { m with carte := m.carte.drop num_carte })

/-- Giocatore: a player, as in the Python dataclass. -/
structure Giocatore where
  id : Nat
  fiches : Nat := 100
  mano : List Carta := []
  ha_bussato : Bool := false
  punti_totali : Nat := 0
  turni_vinti : Nat := 0
  carte_vinte : List Carta := []
  carte_scartate : List Carta := []
deriving DecidableEq

/-- Giocatore.calcola_punti_mano: sum of the strengths of the hand. -/
def Giocatore.calcola_punti_mano (g : Giocatore) : Nat :=
  (g.mano.map Carta.forza_presa).sum

/-- Giocatore.gioca_carta: removes and returns the card at the given index
of the hand; `none` models the ValueError on an empty hand and the
IndexError on an out-of-range index. -/
def Giocatore.gioca_carta (g : Giocatore) (indice : Nat) : Option (Carta × Giocatore) :=
  match g.mano.get? indice with
  | none => none
  | some c => some (c, { g with mano := g.mano.eraseIdx indice })

/-- GestoreBussata.ha_mano_sicura: the hand is a guaranteed winner
(trump Ace; or trump 3 and trump Re when the trump card is not an Ace; or
trump 3 alone when the trump card is the Ace). -/
def ha_mano_sicura (giocatore : Giocatore) (briscola : Carta) : Bool :=
  let ha_asso_briscola := giocatore.mano.any fun c =>
    c.valore == .asso && c.seme == briscola.seme
  if ha_asso_briscola then true
  else if briscola.valore != .asso then
    let ha_tre_briscola := giocatore.mano.any fun c =>
      c.valore == .tre && c.seme == briscola.seme
    let ha_re_briscola := giocatore.mano.any fun c =>
      c.valore == .re && c.seme == briscola.seme
    ha_tre_briscola && ha_re_briscola
  else
    giocatore.mano.any fun c => c.valore == .tre && c.seme == briscola.seme

/-- GestoreBussata.verifica_bussata: knock with a safe hand always; knock
on points above the threshold only when the player's fiches cover the pot;
otherwise do not knock. -/
def verifica_bussata (giocatore : Giocatore) (briscola : Carta) (piatto : Nat) : Bool :=
  let punti_mano := giocatore.calcola_punti_mano
  let mano_sicura := ha_mano_sicura giocatore briscola
  if mano_sicura then true
  else if punti_mano > SOGLIA_PUNTI_BUSSATA then
    decide (giocatore.fiches ≥ piatto)
  else false

/-- TracciamentoCarte: the per-round card-memory tracker. `carte_giocate`
models the Python set of face-up played cards (duplicates are not
inserted), `carte_turno_corrente` the list of cards of the current trick. -/
structure TracciamentoCarte where
  briscola : Carta
  carte_giocate : List Carta := []
  carte_turno_corrente : List Carta := []
deriving DecidableEq

/-- TracciamentoCarte.registra_carta_giocata: adds the card to the played
set and appends it to the current-trick list. -/
def registra_carta_giocata (tr : TracciamentoCarte) (carta : Carta) : TracciamentoCarte :=
  { tr with
      carte_giocate :=
        if cartaMem carta tr.carte_giocate then tr.carte_giocate
        else tr.carte_giocate ++ [carta],
      carte_turno_corrente := tr.carte_turno_corrente ++ [carta] }

/-- TracciamentoCarte.reset_turno: clears only the current-trick list. -/
def reset_turno (tr : TracciamentoCarte) : TracciamentoCarte :=
  { tr with carte_turno_corrente := [] }

/-- TracciamentoCarte.carte_conosciute: the set of cards known to the
observer, as the union (here: concatenation, membership via Carta
equality) of their hand, their discards and the played cards. -/
def carte_conosciute (tr : TracciamentoCarte) (giocatore : Giocatore) : List Carta :=
  giocatore.mano ++ giocatore.carte_scartate ++ tr.carte_giocate

/-- TracciamentoCarte.briscole_piu_forti_non_uscite: all trump cards
strictly stronger than `carta` that are not in the observer's known set;
empty immediately when `carta` is not trump. The loop over VALORI builds
each candidate with its FORZA_BRISCOLA strength. -/
def briscole_piu_forti_non_uscite (tr : TracciamentoCarte) (carta : Carta)
    (giocatore : Giocatore) : List Carta :=
  if carta.seme != tr.briscola.seme then []
  else
    let conosciute := carte_conosciute tr giocatore
    VALORI.filterMap fun valore =>
      let carta_test : Carta :=
        { valore := valore, seme := tr.briscola.seme, forza_presa := FORZA_BRISCOLA valore }
      if decide (carta_test.forza_presa > carta.forza_presa) && !cartaMem carta_test conosciute
      then some carta_test else none

/-- TracciamentoCarte.esiste_briscola_piu_forte_non_uscita: existence check
over briscole_piu_forti_non_uscite. -/
def esiste_briscola_piu_forte_non_uscita (tr : TracciamentoCarte) (carta : Carta)
    (giocatore : Giocatore) : Bool :=
  decide ((briscole_piu_forti_non_uscite tr carta giocatore).length > 0)

/-- GestoreTurno: the trick-engine state (trump, tracker, table of
(player, card) plays, led suit, provisional winning pair). -/
structure GestoreTurno where
  briscola : Carta
  tracciamento : TracciamentoCarte
  tavolo : List (Giocatore × Carta) := []
  seme_richiesto : Option Seme := none
  carta_vincente_corrente : Option (Giocatore × Carta) := none
deriving DecidableEq

/-- The freshly constructed GestoreTurno (its __init__). -/
def initGestore (briscola : Carta) (tr : TracciamentoCarte) : GestoreTurno :=
  { briscola := briscola, tracciamento := tr }

/-- GestoreTurno._carta_batte with trump suit `briscolaSeme`: trump always
beats non-trump; within a shared suit the higher strength wins; a card of
a different non-trump suit never beats. -/
def carta_batte (briscolaSeme : Seme) (carta1 carta2 : Carta) : Bool :=
  let carta1_briscola := carta1.seme == briscolaSeme
  let carta2_briscola := carta2.seme == briscolaSeme
  if carta1_briscola && !carta2_briscola then true
  else if carta2_briscola && !carta1_briscola then false
  else if carta1.seme == carta2.seme then
    decide (carta1.forza_presa > carta2.forza_presa)
  else false

/-- GestoreTurno.aggiungi_carta_tavolo: appends the play to the table and
records it in the tracker; the first play fixes the led suit and seeds the
provisional winner, each later play replaces the provisional winner iff it
beats the current winning card. The `none` branch of the match is the
source's failed assertion, unreachable from the initial state. -/
def aggiungi_carta_tavolo (g : GestoreTurno) (giocatore : Giocatore) (carta : Carta) : GestoreTurno :=
  let tavolo' := g.tavolo ++ [(giocatore, carta)]
  let tracciamento' := registra_carta_giocata g.tracciamento carta
  if tavolo'.length == 1 then
    { g with tavolo := tavolo', tracciamento := tracciamento',
             seme_richiesto := some carta.seme,
             carta_vincente_corrente := some (giocatore, carta) }
  else
    match g.carta_vincente_corrente with
    | none => { g with tavolo := tavolo', tracciamento := tracciamento' }
    | some wc =>
        if carta_batte g.briscola.seme carta wc.2 then
          { g with tavolo := tavolo', tracciamento := tracciamento',
                   carta_vincente_corrente := some (giocatore, carta) }
        else
          { g with tavolo := tavolo', tracciamento := tracciamento' }

/-- GestoreTurno.determina_vincitore: returns the provisional winner's
player and the full list of played cards, and resets the trick state
(table, led suit, provisional winner, tracker's current-trick list).
`none` models the ValueError on an empty table and the failed assertion
on a missing provisional winner. -/
def determina_vincitore (g : GestoreTurno) : Option ((Giocatore × List Carta) × GestoreTurno) :=
  if g.tavolo = [] then none
  else
    match g.carta_vincente_corrente with
    | none => none
    | some wc =>
        some ((wc.1, g.tavolo.map Prod.snd),
          { g with tavolo := [], seme_richiesto := none,
                   carta_vincente_corrente := none,
                   tracciamento := reset_turno g.tracciamento })

/-- Modelled from the spec's winner-determination sentence: the result of
repeatedly applying the beats relation pairwise over the plays in play
order (the first play seeds the running winner, each later play replaces
it iff it beats the running winner's card). -/
def foldBeatsWinner (briscolaSeme : Seme) (plays : List (Giocatore × Carta)) :
    Option (Giocatore × Carta) :=
  match plays with
  | [] => none
  | p :: ps =>
      some (ps.foldl (fun w q => if carta_batte briscolaSeme q.2 w.2 then q else w) p)

/-- Runs a sequence of plays through aggiungi_carta_tavolo. -/
def runPlays (g : GestoreTurno) (plays : List (Giocatore × Carta)) : GestoreTurno :=
  plays.foldl (fun g p => aggiungi_carta_tavolo g p.1 p.2) g

/-- Stable insertion of an element into a list under a boolean comparison
(the element goes before the first entry it compares `le` to). -/
def pyInsert (le : α → α → Bool) (a : α) : List α → List α
  | [] => [a]
  | b :: l => if le a b then a :: b :: l else b :: pyInsert le a l

/-- Stable sort, modelling Python's list.sort with a key: ascending order
uses `le x y = key x ≤ key y`, descending (reverse=True) uses
`le x y = key x ≥ key y`; ties keep the original order in both cases. -/
def pySort (le : α → α → Bool) : List α → List α
  | [] => []
  | a :: l => pyInsert le a (pySort le l)

/-- Python's min with a key: the first element attaining the minimal key. -/
def pyMinBy (f : α → Nat) (a : α) (l : List α) : α :=
  l.foldl (fun m x => if f x < f m then x else m) a

/-- Ascending comparison on the strength of indexed cards (list.sort with
key forza_presa). -/
def forzaAsc (a b : Nat × Carta) : Bool :=
  decide (a.2.forza_presa ≤ b.2.forza_presa)

/-- Descending comparison on the strength of indexed cards (list.sort with
key forza_presa, reverse=True). -/
def forzaDesc (a b : Nat × Carta) : Bool :=
  decide (b.2.forza_presa ≤ a.2.forza_presa)

/-- GestoreTurno._gioca_carta_di_mano_intelligente: the leader's heuristic.
With only trumps in hand, play the strongest trump; otherwise play the
strongest non-trump, except that a strongest trump that is the Ace or the
3 with no stronger trump unseen is played instead. `none` models the
IndexError on an empty hand, unreachable under the caller's guard. -/
def gioca_carta_di_mano_intelligente (g : GestoreTurno) (giocatore : Giocatore) :
    Option (Carta × Giocatore) :=
  let briscole := giocatore.mano.enum.filter fun p => p.2.seme == g.briscola.seme
  let non_briscole := giocatore.mano.enum.filter fun p => p.2.seme != g.briscola.seme
  match non_briscole with
  | [] =>
      match pySort forzaDesc briscole with
      | [] => none
      | (indice, _) :: _ => giocatore.gioca_carta indice
  | _ :: _ =>
      match pySort forzaDesc non_briscole with
      | [] => none
      | (indice_migliore, _) :: _ =>
          match pySort forzaDesc briscole with
          | (indice_bris, carta_bris) :: _ =>
              if (carta_bris.valore == .asso || carta_bris.valore == .tre) &&
                 !esiste_briscola_piu_forte_non_uscita g.tracciamento carta_bris giocatore then
                giocatore.gioca_carta indice_bris
              else
                giocatore.gioca_carta indice_migliore
          | [] => giocatore.gioca_carta indice_migliore

/-- GestoreTurno._scegli_carta_migliore: pick a card from the legal subset
`carte_valide` (pairs of hand index and card). As last to act, win with
the weakest winning card, else dump the weakest legal card; earlier in
the trick, with trumps: win with the first winning card unless the
weakest winning trump risks being overtaken by an unseen stronger trump
(then dump the weakest legal trump); with non-trumps: win with the
weakest winning card, else dump the strongest. `none` models the
IndexError of reading carte_valide[0] on an empty list, which callers
never pass. -/
def scegli_carta_migliore (g : GestoreTurno) (giocatore : Giocatore)
    (carte_valide : List (Nat × Carta)) (ultimo_a_giocare : Bool) :
    Option (Carta × Giocatore) :=
  match g.carta_vincente_corrente with
  | none =>
      match pySort forzaDesc carte_valide with
      | (indice, _) :: _ => giocatore.gioca_carta indice
      | [] => none
  | some wc =>
      let carte_vincenti := carte_valide.filter fun p =>
        carta_batte g.briscola.seme p.2 wc.2
      if ultimo_a_giocare then
        match pySort forzaAsc carte_vincenti with
        | (indice, _) :: _ => giocatore.gioca_carta indice
        | [] =>
            match pySort forzaAsc carte_valide with
            | (indice, _) :: _ => giocatore.gioca_carta indice
            | [] => none
      else
        match carte_valide with
        | [] => none
        | cv0 :: _ =>
            let sono_briscole := cv0.2.seme == g.briscola.seme
            if sono_briscole then
              match carte_vincenti with
              | v :: vs =>
                  let carta_vincente_piu_bassa :=
                    (pyMinBy (fun p => p.2.forza_presa) v vs).2
                  if esiste_briscola_piu_forte_non_uscita g.tracciamento
                       carta_vincente_piu_bassa giocatore then
                    match pySort forzaAsc carte_valide with
                    | (indice, _) :: _ => giocatore.gioca_carta indice
                    | [] => none
                  else
                    giocatore.gioca_carta v.1
              | [] =>
                  match pySort forzaAsc carte_valide with
                  | (indice, _) :: _ => giocatore.gioca_carta indice
                  | [] => none
            else
              match carte_vincenti with
              | _ :: _ =>
                  match pySort forzaAsc carte_vincenti with
                  | (indice, _) :: _ => giocatore.gioca_carta indice
                  | [] => none
              | [] =>
                  match pySort forzaDesc carte_valide with
                  | (indice, _) :: _ => giocatore.gioca_carta indice
                  | [] => none

/-- GestoreTurno._gioca_carta_piu_bassa: lowest card, non-trumps first. -/
def gioca_carta_piu_bassa (g : GestoreTurno) (giocatore : Giocatore) :
    Option (Carta × Giocatore) :=
  let non_briscole := giocatore.mano.enum.filter fun p => p.2.seme != g.briscola.seme
  let briscole := giocatore.mano.enum.filter fun p => p.2.seme == g.briscola.seme
  match non_briscole with
  | _ :: _ =>
      match pySort forzaAsc non_briscole with
      | (indice, _) :: _ => giocatore.gioca_carta indice
      | [] => none
  | [] =>
      match pySort forzaAsc briscole with
      | (indice, _) :: _ => giocatore.gioca_carta indice
      | [] => none

/-- GestoreTurno._gioca_carta_non_di_mano: the follower's move. Play from
the cards matching the led suit when any exist, else from the trumps when
any exist, else the lowest card. -/
def gioca_carta_non_di_mano (g : GestoreTurno) (giocatore : Giocatore)
    (ultimo_a_giocare : Bool) : Option (Carta × Giocatore) :=
  let carte_stesso_seme := giocatore.mano.enum.filter fun p =>
    g.seme_richiesto == some p.2.seme
  match carte_stesso_seme with
  | _ :: _ => scegli_carta_migliore g giocatore carte_stesso_seme ultimo_a_giocare
  | [] =>
      let carte_briscola := giocatore.mano.enum.filter fun p =>
        p.2.seme == g.briscola.seme
      match carte_briscola with
      | _ :: _ => scegli_carta_migliore g giocatore carte_briscola ultimo_a_giocare
      | [] => gioca_carta_piu_bassa g giocatore

/-- GestoreTurno.gioca_carta_strategica as written in the source. The
first `none` models the ValueError on an empty hand; the second `none`
models the TypeError raised by the non-leader branch, whose call
`self._gioca_carta_non_di_mano(giocatore)` omits the required
`ultimo_a_giocare` argument and therefore cannot return a card. -/
def gioca_carta_strategica (g : GestoreTurno) (giocatore : Giocatore)
    (primo_turno giocatore_di_mano ultimo_a_giocare : Bool) :
    Option (Carta × Giocatore) :=
  if giocatore.mano = [] then none
  else
    match (if giocatore_di_mano && primo_turno then
             giocatore.mano.enum.find? fun p =>
               p.2.valore == .asso && p.2.seme == g.briscola.seme
           else none) with
    | some (i, _) => giocatore.gioca_carta i
    | none =>
        if !giocatore_di_mano && g.seme_richiesto.isSome then
          none
        else
          gioca_carta_di_mano_intelligente g giocatore

/-- gioca_carta_strategica with the arity slip repaired: the non-leader
branch forwards ultimo_a_giocare to _gioca_carta_non_di_mano, which is
the evident intent of the source (its docstring rule 2: a follower must
answer the led suit when possible). -/
def gioca_carta_strategica_fixed (g : GestoreTurno) (giocatore : Giocatore)
    (primo_turno giocatore_di_mano ultimo_a_giocare : Bool) :
    Option (Carta × Giocatore) :=
  if giocatore.mano = [] then none
  else
    match (if giocatore_di_mano && primo_turno then
             giocatore.mano.enum.find? fun p =>
               p.2.valore == .asso && p.2.seme == g.briscola.seme
           else none) with
    | some (i, _) => giocatore.gioca_carta i
    | none =>
        if !giocatore_di_mano && g.seme_richiesto.isSome then
          gioca_carta_non_di_mano g giocatore ultimo_a_giocare
        else
          gioca_carta_di_mano_intelligente g giocatore

/-- Concrete card: Ace of denari with its non-trump strength. -/
def carta_asso_denari : Carta := { valore := .asso, seme := .denari, forza_presa := 90 }

/-- Concrete card: Ace of spade with its non-trump strength. -/
def carta_asso_spade : Carta := { valore := .asso, seme := .spade, forza_presa := 90 }

/-- Concrete card: 3 of denari with its non-trump strength. -/
def carta_tre_denari : Carta := { valore := .tre, seme := .denari, forza_presa := 80 }

/-- Concrete card: 7 of denari with its non-trump strength. -/
def carta_sette_denari : Carta := { valore := .sette, seme := .denari, forza_presa := 20 }

/-- Concrete card: 2 of spade with its non-trump strength. -/
def carta_due_spade : Carta := { valore := .due, seme := .spade, forza_presa := 2 }

/-- Concrete card: Ace of coppe with its trump strength (coppe trump). -/
def carta_asso_coppe : Carta := { valore := .asso, seme := .coppe, forza_presa := 100 }

/-- Concrete card: 3 of coppe with its trump strength (coppe trump). -/
def carta_tre_coppe : Carta := { valore := .tre, seme := .coppe, forza_presa := 95 }

/-- Concrete trump indicator: Re of coppe (strength still 0, as for the
card extracted before assegna_forza_carte runs). -/
def briscola_re_coppe : Carta := { valore := .re, seme := .coppe }

/-- Concrete trump indicator: Asso of coppe (strength still 0). -/
def briscola_asso_coppe : Carta := { valore := .asso, seme := .coppe }

/-- Concrete player with an empty hand. -/
def giocatore_zero : Giocatore := { id := 0 }

/-- Concrete player holding the Ace of denari and the 2 of spade. -/
def giocatore_uno : Giocatore := { id := 1, mano := [carta_asso_denari, carta_due_spade] }

/-- Concrete player with a high-point hand (260 points), only 10 fiches,
and no card of the coppe suit. -/
def giocatore_punti : Giocatore :=
  { id := 2, fiches := 10, mano := [carta_asso_denari, carta_tre_denari, carta_asso_spade] }

/-- Concrete fresh tracker for the Re-of-coppe trump. -/
def tracker_re_coppe : TracciamentoCarte := { briscola := briscola_re_coppe }

/-- Concrete trick state after the leader opened with the 7 of denari
under the Re-of-coppe trump. -/
def stato_dopo_apertura : GestoreTurno :=
  aggiungi_carta_tavolo (initGestore briscola_re_coppe tracker_re_coppe)
    giocatore_zero carta_sette_denari

/-- Concrete two-play trick used by witnesses. -/
def giocate_esempio : List (Giocatore × Carta) :=
  [(giocatore_zero, carta_sette_denari), (giocatore_uno, carta_asso_denari)]

/-- Concrete deck holding a single card. -/
def mazzo_una_carta : Mazzo := { carte := [carta_due_spade] }

/-- Concrete tracker whose trump indicator is the Ace of coppe and whose
played set holds one denari card. -/
def tracker_asso_coppe : TracciamentoCarte :=
  { briscola := briscola_asso_coppe, carte_giocate := [carta_sette_denari] }

/-- Concrete player holding the Ace of coppe with no fiches. -/
def giocatore_asso : Giocatore :=
  { id := 3, fiches := 0, mano := [carta_asso_coppe, carta_due_spade] }

/-- The trick state left behind by determina_vincitore applied to
stato_dopo_apertura. -/
def stato_reset : GestoreTurno :=
  { stato_dopo_apertura with
      tavolo := [], seme_richiesto := none, carta_vincente_corrente := none,
      tracciamento := reset_turno stato_dopo_apertura.tracciamento }

/-- Membership under Carta equality depends only on valore and seme. -/
theorem cartaMem_congr (a b : Carta) (h1 : a.valore = b.valore) (h2 : a.seme = b.seme)
    (l : List Carta) : cartaMem a l = cartaMem b l := by
  have h : cartaEq a = cartaEq b := funext fun x => by simp [cartaEq, h1, h2]
  simp [cartaMem, h]

/-- Appending one play to the fold of the beats relation compares the new
card against the previous running winner. -/
theorem foldBeatsWinner_concat (bs : Seme) (ps : List (Giocatore × Carta))
    (q : Giocatore × Carta) :
    foldBeatsWinner bs (ps ++ [q]) =
      (match foldBeatsWinner bs ps with
       | none => some q
       | some w => if carta_batte bs q.2 w.2 then some q else some w) := by
  cases ps with
  | nil => simp [foldBeatsWinner]
  | cons p ps =>
      simp only [List.cons_append, foldBeatsWinner, List.foldl_append, List.foldl_cons,
        List.foldl_nil]
      split <;> rfl

/-- Running one more play through the engine is one aggiungi_carta_tavolo. -/
theorem runPlays_append (g : GestoreTurno) (ps : List (Giocatore × Carta))
    (q : Giocatore × Carta) :
    runPlays g (ps ++ [q]) = aggiungi_carta_tavolo (runPlays g ps) q.1 q.2 := by
  simp [runPlays, List.foldl_append]

/-- State invariant of the trick engine: starting from the fresh state,
the table accumulates the plays in order and the provisional winner is
the fold of the beats relation over them. -/
theorem runPlays_spec (briscola : Carta) (tr : TracciamentoCarte)
    (plays : List (Giocatore × Carta)) :
    (runPlays (initGestore briscola tr) plays).briscola = briscola ∧
    (runPlays (initGestore briscola tr) plays).tavolo = plays ∧
    (runPlays (initGestore briscola tr) plays).carta_vincente_corrente
      = foldBeatsWinner briscola.seme plays := by
  induction plays using List.reverseRecOn with
  | nil => exact ⟨rfl, rfl, rfl⟩
  | append_singleton ps q ih =>
      obtain ⟨hb, ht, hw⟩ := ih
      rw [runPlays_append]
      cases ps with
      | nil =>
          refine ⟨?_, ?_, ?_⟩ <;>
            simp [aggiungi_carta_tavolo, ht, hw, foldBeatsWinner, hb]
      | cons p ps' =>
          have hfold : foldBeatsWinner briscola.seme (p :: ps')
              = some (ps'.foldl (fun w r => if carta_batte briscola.seme r.2 w.2 then r else w) p) := rfl
          rw [hfold] at hw
          rw [foldBeatsWinner_concat, hfold]
          refine ⟨?_, ?_, ?_⟩ <;>
            simp only [aggiungi_carta_tavolo, ht, hw, hb,
              List.cons_append, List.length_append, List.length_cons, List.length_nil] <;>
            split <;> simp_all [apply_ite, Nat.beq_eq_true_eq]

/-- C1: the claim as stated is false: for two distinct cards of two
different non-trump suits, neither beats the other, so the exactly-one
part of the claim fails (here under trump coppe, Ace of denari vs Ace of
spade, both drawn from the 40-card deck with assigned strengths). -/
theorem c1_counterexample :
    carta_asso_denari ∈ deckConForza .coppe ∧
    carta_asso_spade ∈ deckConForza .coppe ∧
    carta_asso_denari ≠ carta_asso_spade ∧
    carta_batte .coppe carta_asso_denari carta_asso_spade = false ∧
    carta_batte .coppe carta_asso_spade carta_asso_denari = false := by decide

/-- C1 (amended): for every fixed trump suit and cards a, b of the
40-card deck with assigned strengths, the trick-beats relation is
irreflexive and antisymmetric; for distinct a, b exactly one of
beats(a,b), beats(b,a) holds whenever a and b share a suit or at least
one of them is trump, while for distinct cards of two different
non-trump suits neither beats the other. -/
theorem c1_beats_amended :
    ∀ bs : Seme, ∀ a ∈ deckConForza bs, ∀ b ∈ deckConForza bs,
      carta_batte bs a a = false ∧
      ¬(carta_batte bs a b = true ∧ carta_batte bs b a = true) ∧
      (a ≠ b → (a.seme = b.seme ∨ a.seme = bs ∨ b.seme = bs) →
        (carta_batte bs a b = true ↔ ¬carta_batte bs b a = true)) ∧
      (a ≠ b → a.seme ≠ b.seme → a.seme ≠ bs → b.seme ≠ bs →
        carta_batte bs a b = false ∧ carta_batte bs b a = false) := by decide

/-- Witness for c1_beats_amended at trump coppe, a = Ace of coppe,
b = Ace of denari. -/
theorem c1_beats_amended_witness :
    carta_asso_coppe ∈ deckConForza .coppe ∧
    carta_asso_denari ∈ deckConForza .coppe ∧
    (carta_batte .coppe carta_asso_coppe carta_asso_coppe = false ∧
     ¬(carta_batte .coppe carta_asso_coppe carta_asso_denari = true ∧
       carta_batte .coppe carta_asso_denari carta_asso_coppe = true) ∧
     (carta_asso_coppe ≠ carta_asso_denari →
       (carta_asso_coppe.seme = carta_asso_denari.seme ∨
         carta_asso_coppe.seme = .coppe ∨ carta_asso_denari.seme = .coppe) →
       (carta_batte .coppe carta_asso_coppe carta_asso_denari = true ↔
         ¬carta_batte .coppe carta_asso_denari carta_asso_coppe = true)) ∧
     (carta_asso_coppe ≠ carta_asso_denari →
       carta_asso_coppe.seme ≠ carta_asso_denari.seme →
       carta_asso_coppe.seme ≠ .coppe → carta_asso_denari.seme ≠ .coppe →
       carta_batte .coppe carta_asso_coppe carta_asso_denari = false ∧
       carta_batte .coppe carta_asso_denari carta_asso_coppe = false)) :=
  ⟨by decide, by decide,
    c1_beats_amended .coppe carta_asso_coppe (by decide) carta_asso_denari (by decide)⟩

/-- C3: the claim as stated is false: the two tables' value sets are not
disjoint (both contain 40 and 50) and not every trump value exceeds every
non-trump value (trump 2 is 35, below the non-trump Ace's 90). -/
theorem c3_counterexample :
    FORZA_NON_BRISCOLA .cavallo = 50 ∧ FORZA_BRISCOLA .sei = 50 ∧
    FORZA_NON_BRISCOLA .fante = 40 ∧ FORZA_BRISCOLA .quattro = 40 ∧
    FORZA_BRISCOLA .due = 35 ∧ FORZA_NON_BRISCOLA .asso = 90 ∧
    FORZA_BRISCOLA .due < FORZA_NON_BRISCOLA .asso := by decide

/-- C3 (amended): each table's 10 values are pairwise distinct and
strictly decreasing along the card hierarchy, and rank by rank the trump
value exceeds the non-trump value (though the two value sets overlap and
the weakest trump values sit below the strongest non-trump values). -/
theorem c3_tables_amended :
    (gerarchia.map FORZA_NON_BRISCOLA).Pairwise (· > ·) ∧
    (gerarchia.map FORZA_BRISCOLA).Pairwise (· > ·) ∧
    (VALORI.map FORZA_NON_BRISCOLA).Nodup ∧
    (VALORI.map FORZA_BRISCOLA).Nodup ∧
    (∀ v : Valore, FORZA_NON_BRISCOLA v < FORZA_BRISCOLA v) := by decide

/-- C4: for every trump suit, the trump-suit Ace (strength 100 from the
trump table) is in the deck and its strength strictly exceeds that of
every other card of the 40-card deck, and within each of the two tables
the 10 strengths are strictly decreasing along the hierarchy with no
duplicates. -/
theorem c4_trump_ace_max :
    ∀ bs : Seme,
      ({ valore := .asso, seme := bs, forza_presa := FORZA_BRISCOLA .asso } : Carta)
          ∈ deckConForza bs ∧
      (∀ c ∈ deckConForza bs,
        c ≠ { valore := .asso, seme := bs, forza_presa := FORZA_BRISCOLA .asso } →
          c.forza_presa < FORZA_BRISCOLA .asso) ∧
      (gerarchia.map FORZA_BRISCOLA).Pairwise (· > ·) ∧
      (gerarchia.map FORZA_NON_BRISCOLA).Pairwise (· > ·) ∧
      (VALORI.map FORZA_BRISCOLA).Nodup ∧
      (VALORI.map FORZA_NON_BRISCOLA).Nodup := by decide

/-- Witness for c4_trump_ace_max at trump spade. -/
theorem c4_trump_ace_max_witness :
    ({ valore := .asso, seme := .spade, forza_presa := FORZA_BRISCOLA .asso } : Carta)
        ∈ deckConForza .spade ∧
    (∀ c ∈ deckConForza .spade,
      c ≠ { valore := .asso, seme := .spade, forza_presa := FORZA_BRISCOLA .asso } →
        c.forza_presa < FORZA_BRISCOLA .asso) ∧
    (gerarchia.map FORZA_BRISCOLA).Pairwise (· > ·) ∧
    (gerarchia.map FORZA_NON_BRISCOLA).Pairwise (· > ·) ∧
    (VALORI.map FORZA_BRISCOLA).Nodup ∧
    (VALORI.map FORZA_NON_BRISCOLA).Nodup :=
  c4_trump_ace_max .spade

/-- C2: for every non-empty sequence of plays fed through
aggiungi_carta_tavolo from the fresh trick state, the provisional winner
equals the fold of the beats relation over the plays in play order, and
determina_vincitore returns exactly that player with the full list of
played cards. -/
theorem c2_incremental_winner_eq_fold (briscola : Carta) (tr : TracciamentoCarte)
    (plays : List (Giocatore × Carta)) (h : plays ≠ []) :
    (runPlays (initGestore briscola tr) plays).carta_vincente_corrente
      = foldBeatsWinner briscola.seme plays ∧
    ∃ w, foldBeatsWinner briscola.seme plays = some w ∧
      (determina_vincitore (runPlays (initGestore briscola tr) plays)).map Prod.fst
        = some (w.1, plays.map Prod.snd) := by
  obtain ⟨hb, ht, hw⟩ := runPlays_spec briscola tr plays
  cases plays with
  | nil => exact absurd rfl h
  | cons p ps =>
      refine ⟨hw, ?_⟩
      have hfold : foldBeatsWinner briscola.seme (p :: ps)
          = some (ps.foldl (fun w r => if carta_batte briscola.seme r.2 w.2 then r else w) p) :=
        rfl
      refine ⟨_, hfold, ?_⟩
      unfold determina_vincitore
      rw [ht, hw, hfold]
      simp

/-- Witness for c2_incremental_winner_eq_fold on a concrete two-play trick. -/
theorem c2_incremental_winner_eq_fold_witness :
    giocate_esempio ≠ [] ∧
    ((runPlays (initGestore briscola_re_coppe tracker_re_coppe) giocate_esempio).carta_vincente_corrente
        = foldBeatsWinner briscola_re_coppe.seme giocate_esempio ∧
      ∃ w, foldBeatsWinner briscola_re_coppe.seme giocate_esempio = some w ∧
        (determina_vincitore (runPlays (initGestore briscola_re_coppe tracker_re_coppe)
            giocate_esempio)).map Prod.fst
          = some (w.1, giocate_esempio.map Prod.snd)) :=
  ⟨by decide,
    c2_incremental_winner_eq_fold briscola_re_coppe tracker_re_coppe giocate_esempio (by decide)⟩

/-- C5: on a trick where denari was led, a non-leading player holding the
Ace of denari gets no card from gioca_carta_strategica as written (the
source's non-leader branch calls _gioca_carta_non_di_mano without its
required ultimo_a_giocare argument, a TypeError), while the call with the
missing argument repaired selects a card of the led suit. -/
theorem c5_non_leader_call_fails :
    (giocatore_uno.mano.any fun c => some c.seme == stato_dopo_apertura.seme_richiesto) = true ∧
    stato_dopo_apertura.seme_richiesto = some .denari ∧
    gioca_carta_strategica stato_dopo_apertura giocatore_uno false false false = none ∧
    (gioca_carta_strategica_fixed stato_dopo_apertura giocatore_uno false false false).map
        (fun r => r.1.seme) = some .denari := by decide

/-- C6: a hand containing the trump-suit Ace makes verifica_bussata
return true for every trump card and pot, whatever the point sum and the
player's fiches. -/
theorem c6_trump_ace_knocks (giocatore : Giocatore) (briscola : Carta) (piatto : Nat)
    (h : (giocatore.mano.any fun c => c.valore == .asso && c.seme == briscola.seme) = true) :
    verifica_bussata giocatore briscola piatto = true := by
  simp [verifica_bussata, ha_mano_sicura, h]

/-- Witness for c6_trump_ace_knocks: a player with the Ace of coppe, zero
fiches and a low point sum still knocks against a pot of 999. -/
theorem c6_trump_ace_knocks_witness :
    (giocatore_asso.mano.any fun c =>
        c.valore == .asso && c.seme == briscola_re_coppe.seme) = true ∧
    verifica_bussata giocatore_asso briscola_re_coppe 999 = true :=
  ⟨by decide, c6_trump_ace_knocks giocatore_asso briscola_re_coppe 999 (by decide)⟩

/-- C7: without a safe hand, verifica_bussata returns true exactly when
the hand's point sum exceeds the threshold and the fiches cover the pot:
above the threshold with insufficient fiches it returns false, and at or
below the threshold it returns false. -/
theorem c7_threshold_knock (giocatore : Giocatore) (briscola : Carta) (piatto : Nat)
    (h : ha_mano_sicura giocatore briscola = false) :
    (giocatore.calcola_punti_mano > SOGLIA_PUNTI_BUSSATA → giocatore.fiches ≥ piatto →
        verifica_bussata giocatore briscola piatto = true) ∧
    (giocatore.calcola_punti_mano > SOGLIA_PUNTI_BUSSATA → giocatore.fiches < piatto →
        verifica_bussata giocatore briscola piatto = false) ∧
    (¬ giocatore.calcola_punti_mano > SOGLIA_PUNTI_BUSSATA →
        verifica_bussata giocatore briscola piatto = false) := by
  refine ⟨fun h1 h2 => ?_, fun h1 h2 => ?_, fun h1 => ?_⟩ <;>
    simp [verifica_bussata, h, h1] <;> omega

/-- Witness for c7_threshold_knock: the high-point player (260 points, 10
fiches) knocks on a pot of 5 and does not knock on a pot of 50; against a
small hand the threshold branch yields false (instantiated at pot 5). -/
theorem c7_threshold_knock_witness :
    ha_mano_sicura giocatore_punti briscola_re_coppe = false ∧
    ((giocatore_punti.calcola_punti_mano > SOGLIA_PUNTI_BUSSATA → giocatore_punti.fiches ≥ 5 →
        verifica_bussata giocatore_punti briscola_re_coppe 5 = true) ∧
     (giocatore_punti.calcola_punti_mano > SOGLIA_PUNTI_BUSSATA → giocatore_punti.fiches < 5 →
        verifica_bussata giocatore_punti briscola_re_coppe 5 = false) ∧
     (¬ giocatore_punti.calcola_punti_mano > SOGLIA_PUNTI_BUSSATA →
        verifica_bussata giocatore_punti briscola_re_coppe 5 = false)) :=
  ⟨by decide, c7_threshold_knock giocatore_punti briscola_re_coppe 5 (by decide)⟩

/-- C8: asking pesca_carte for more cards than remain yields the empty
list, leaves the deck's card sequence unchanged, and raises nothing (the
function returns normally). -/
theorem c8_pesca_insufficient (m : Mazzo) (num_carte : Nat)
    (h : m.carte.length < num_carte) :
    m.pesca_carte num_carte = ([], m) ∧
    (m.pesca_carte num_carte).2.carte = m.carte := by
  unfold Mazzo.pesca_carte
  simp [h]

/-- Witness for c8_pesca_insufficient: drawing 3 from a 1-card deck. -/
theorem c8_pesca_insufficient_witness :
    mazzo_una_carta.carte.length < 3 ∧
    (mazzo_una_carta.pesca_carte 3 = ([], mazzo_una_carta) ∧
      (mazzo_una_carta.pesca_carte 3).2.carte = mazzo_una_carta.carte) :=
  ⟨by decide, c8_pesca_insufficient mazzo_una_carta 3 (by decide)⟩

/-- C9: reset_turno clears only the current-trick list, leaving the
cumulative played-cards record (and the trump) unchanged; and the reset
performed by determina_vincitore clears the table, the led suit, the
provisional winner and the current-trick list while leaving the
played-cards record unchanged. -/
theorem c9_reset_frame (tr : TracciamentoCarte) (g : GestoreTurno)
    (res : Giocatore × List Carta) (g' : GestoreTurno)
    (h : determina_vincitore g = some (res, g')) :
    (reset_turno tr).carte_giocate = tr.carte_giocate ∧
    (reset_turno tr).briscola = tr.briscola ∧
    (reset_turno tr).carte_turno_corrente = [] ∧
    g'.tracciamento.carte_giocate = g.tracciamento.carte_giocate ∧
    g'.tracciamento.briscola = g.tracciamento.briscola ∧
    g'.tavolo = [] ∧ g'.seme_richiesto = none ∧
    g'.carta_vincente_corrente = none ∧
    g'.tracciamento.carte_turno_corrente = [] := by
  unfold determina_vincitore at h
  refine ⟨rfl, rfl, rfl, ?_⟩
  split at h
  · exact absurd h (by simp)
  · split at h
    · exact absurd h (by simp)
    · rw [Option.some_inj] at h
      have h3 := (congrArg Prod.snd h).symm
      subst h3
      exact ⟨rfl, rfl, rfl, rfl, rfl, rfl⟩

/-- Witness for c9_reset_frame on the one-card trick state. -/
theorem c9_reset_frame_witness :
    determina_vincitore stato_dopo_apertura
        = some ((giocatore_zero, [carta_sette_denari]), stato_reset) ∧
    ((reset_turno tracker_asso_coppe).carte_giocate = tracker_asso_coppe.carte_giocate ∧
     (reset_turno tracker_asso_coppe).briscola = tracker_asso_coppe.briscola ∧
     (reset_turno tracker_asso_coppe).carte_turno_corrente = [] ∧
     stato_reset.tracciamento.carte_giocate
        = stato_dopo_apertura.tracciamento.carte_giocate ∧
     stato_reset.tracciamento.briscola = stato_dopo_apertura.tracciamento.briscola ∧
     stato_reset.tavolo = [] ∧ stato_reset.seme_richiesto = none ∧
     stato_reset.carta_vincente_corrente = none ∧
     stato_reset.tracciamento.carte_turno_corrente = []) :=
  ⟨by decide,
    c9_reset_frame tracker_asso_coppe stato_dopo_apertura
      (giocatore_zero, [carta_sette_denari]) stato_reset (by decide)⟩

/-- C10: when neither the observer's hand nor their discards nor the
round's played-cards record contains the face-up trump indicator, the
tracker's known-card set excludes that indicator; in particular, when the
indicator is the trump-suit Ace, a stronger unseen trump exists above the
trump-suit 3, so esiste_briscola_piu_forte_non_uscita returns true on it. -/
theorem c10_trump_indicator_unseen (tr : TracciamentoCarte) (giocatore : Giocatore)
    (h1 : cartaMem tr.briscola giocatore.mano = false)
    (h2 : cartaMem tr.briscola giocatore.carte_scartate = false)
    (h3 : cartaMem tr.briscola tr.carte_giocate = false) :
    cartaMem tr.briscola (carte_conosciute tr giocatore) = false ∧
    (tr.briscola.valore = .asso →
      esiste_briscola_piu_forte_non_uscita tr
        { valore := .tre, seme := tr.briscola.seme, forza_presa := FORZA_BRISCOLA .tre }
        giocatore = true) := by
  have hmem : cartaMem tr.briscola (carte_conosciute tr giocatore) = false := by
    have e : cartaMem tr.briscola (carte_conosciute tr giocatore)
        = (cartaMem tr.briscola giocatore.mano ||
           cartaMem tr.briscola giocatore.carte_scartate ||
           cartaMem tr.briscola tr.carte_giocate) := by
      simp [cartaMem, carte_conosciute, List.any_append, Bool.or_assoc]
    rw [e, h1, h2, h3]
    rfl
  refine ⟨hmem, fun h4 => ?_⟩
  have hcm : cartaMem
      (Carta.mk Valore.asso tr.briscola.seme 100)
      (carte_conosciute tr giocatore) = false := by
    rw [cartaMem_congr (Carta.mk Valore.asso tr.briscola.seme 100)
      tr.briscola (by rw [h4]) rfl]
    exact hmem
  have hm : Carta.mk Valore.asso tr.briscola.seme 100
      ∈ briscole_piu_forti_non_uscite tr
          (Carta.mk Valore.tre tr.briscola.seme 95)
          giocatore := by
    unfold briscole_piu_forti_non_uscite
    simp only [bne_self_eq_false, Bool.false_eq_true, if_false]
    refine List.mem_filterMap.mpr ⟨Valore.asso, by decide, ?_⟩
    simp [hcm, FORZA_BRISCOLA]
  exact decide_eq_true (List.length_pos_of_mem hm)

/-- Witness for c10_trump_indicator_unseen: the Ace-of-coppe indicator is
unknown to a player holding only denari and spade cards after one denari
card was played, and the 3 of coppe has a stronger unseen trump. -/
theorem c10_trump_indicator_unseen_witness :
    (cartaMem tracker_asso_coppe.briscola giocatore_uno.mano = false ∧
     cartaMem tracker_asso_coppe.briscola giocatore_uno.carte_scartate = false ∧
     cartaMem tracker_asso_coppe.briscola tracker_asso_coppe.carte_giocate = false) ∧
    (cartaMem tracker_asso_coppe.briscola
        (carte_conosciute tracker_asso_coppe giocatore_uno) = false ∧
     (tracker_asso_coppe.briscola.valore = .asso →
       esiste_briscola_piu_forte_non_uscita tracker_asso_coppe
         { valore := .tre, seme := tracker_asso_coppe.briscola.seme,
           forza_presa := FORZA_BRISCOLA .tre } giocatore_uno = true)) :=
  ⟨⟨by decide, by decide, by decide⟩,
    c10_trump_indicator_unseen tracker_asso_coppe giocatore_uno
      (by decide) (by decide) (by decide)⟩
